import Mathlib

/-!
Verification of the retrieval-orchestration and time-series-analytics core of
the DS5500-RAG repository.

The development shallowly embeds the Python source:

* dates (`datetime.strptime(s, "%Y-%m-%d")`, `strftime("%Y-%m-%d")`,
  `timedelta(days = n)` subtraction) are modelled by `PDate`, `parseDate`,
  `renderDate` and `predN`;
* `llama_api.fix_date_parameters`, `llama_api.call_fred_api_with_fallback`,
  `llama_api.FredLLMAgent.execute_tool_calls` and the tool-message assembly of
  `llama_api.FredLLMAgent.process_question` are embedded over those dates;
* `fred_api.call_fred_api` is embedded with the HTTP response as an explicit
  input and the analytics engine as an explicit function argument (an `Option`
  result models a raised exception caught by the `try/except`);
* `metrics_computing.TimeSeriesAnalyzer` (`_parse_json`, `calculate_changes`,
  `generate_integrated_timeseries`) is embedded over exact rationals, with an
  extended-number type `PyNum` for the places where numpy float division by
  zero silently produces `inf`/`nan`;
* `retrieval_accuracy_test.AccuracyEvaluator.evaluate_single_case` and its two
  axis scorers are embedded with the model extraction as an explicit input.

Machine floats are idealised as rationals except where the claims are about
division-by-zero behaviour, where `PyNum` keeps the numpy semantics.
-/

set_option maxRecDepth 8000

namespace DS5500

/-- A proleptic-Gregorian calendar date, as carried by a Python
`datetime.datetime` produced by `strptime(s, "%Y-%m-%d")` (the time part is
always midnight, so it is omitted). -/
structure PDate where
  y : Nat
  m : Nat
  d : Nat
deriving DecidableEq, Repr, Inhabited

/-- Gregorian leap-year test, as in Python `calendar.isleap` /
`datetime`'s internal `_is_leap`. -/
def isLeap (y : Nat) : Bool :=
  (y % 4 == 0 && y % 100 != 0) || y % 400 == 0

/-- Length of month `m` of year `y` (Python `calendar.monthrange` /
`datetime`'s `_days_in_month`). -/
def daysInMonth (y m : Nat) : Nat :=
  if m = 2 then (if isLeap y then 29 else 28)
  else if m = 4 ∨ m = 6 ∨ m = 9 ∨ m = 11 then 30
  else 31

/-- Number of days in year `y` strictly before month `m` (CPython's
`_DAYS_BEFORE_MONTH` table plus the leap correction). -/
def daysBeforeMonth (y m : Nat) : Nat :=
  (match m with
    | 1 => 0 | 2 => 31 | 3 => 59 | 4 => 90 | 5 => 120 | 6 => 151
    | 7 => 181 | 8 => 212 | 9 => 243 | 10 => 273 | 11 => 304 | 12 => 334
    | _ => 0)
  + (if 3 ≤ m ∧ isLeap y then 1 else 0)

/-- Number of days strictly before January 1 of year `y`
(Python `datetime`'s `_days_before_year`). -/
def daysBeforeYear (y : Nat) : Nat :=
  365 * (y - 1) + (y - 1) / 4 - (y - 1) / 100 + (y - 1) / 400

/-- Python `date.toordinal()`: day number with `0001-01-01` as day 1.
Chronological comparison of `datetime` objects agrees with comparison of
ordinals. -/
def toOrdinal (x : PDate) : Nat :=
  daysBeforeYear x.y + daysBeforeMonth x.y x.m + x.d

/-- The dates representable by Python `datetime.date`
(`MINYEAR = 1`, `MAXYEAR = 9999`, day within the month). -/
def validDate (x : PDate) : Prop :=
  1 ≤ x.y ∧ x.y ≤ 9999 ∧ 1 ≤ x.m ∧ x.m ≤ 12 ∧ 1 ≤ x.d ∧ x.d ≤ daysInMonth x.y x.m

instance (x : PDate) : Decidable (validDate x) := by
  unfold validDate; infer_instance

/-- One day earlier (`dt - timedelta(days = 1)`).  Python raises
`OverflowError` below `0001-01-01`; the model clamps there instead, and every
theorem below that subtracts days carries a hypothesis keeping it away from
the clamp. -/
def predDate (x : PDate) : PDate :=
  if 2 ≤ x.d then ⟨x.y, x.m, x.d - 1⟩
  else if 2 ≤ x.m then ⟨x.y, x.m - 1, daysInMonth x.y (x.m - 1)⟩
  else if 2 ≤ x.y then ⟨x.y - 1, 12, 31⟩
  else ⟨1, 1, 1⟩

/-- Shift `n` days earlier (`dt - timedelta(days = n)`). -/
def predN : Nat → PDate → PDate
  | 0, x => x
  | n + 1, x => predN n (predDate x)

theorem isLeap_iff (y : Nat) :
    isLeap y = true ↔ ((y % 4 = 0 ∧ y % 100 ≠ 0) ∨ y % 400 = 0) := by
  simp [isLeap]

theorem daysInMonth_pos (y m : Nat) : 1 ≤ daysInMonth y m := by
  unfold daysInMonth
  split
  · split <;> omega
  · split <;> omega

theorem daysInMonth_le (y m : Nat) : daysInMonth y m ≤ 31 := by
  unfold daysInMonth
  split
  · split <;> omega
  · split <;> omega

theorem daysBeforeMonth_step (y m : Nat) (h1 : 2 ≤ m) (h2 : m ≤ 12) :
    daysBeforeMonth y m = daysBeforeMonth y (m - 1) + daysInMonth y (m - 1) := by
  rcases hl : isLeap y with hfalse | htrue <;>
    (interval_cases m <;> simp only [daysBeforeMonth, daysInMonth, hl] <;> norm_num)

theorem daysBeforeMonth_twelve (y : Nat) :
    daysBeforeMonth y 12 + daysInMonth y 12 = 334 + 31 + (if isLeap y then 1 else 0) := by
  rcases hl : isLeap y with hfalse | htrue <;>
    simp only [daysBeforeMonth, daysInMonth, hl] <;> norm_num

set_option maxHeartbeats 3000000 in
theorem daysBeforeYear_succ (y : Nat) (h : 1 ≤ y) :
    daysBeforeYear (y + 1) = daysBeforeYear y + 365 + (if isLeap y then 1 else 0) := by
  cases hl : isLeap y with
  | false =>
    have hiff : ¬((y % 4 = 0 ∧ y % 100 ≠ 0) ∨ y % 400 = 0) := by
      rw [← isLeap_iff, hl]
      simp
    simp only [Bool.false_eq_true, if_false]
    unfold daysBeforeYear
    omega
  | true =>
    have hiff : (y % 4 = 0 ∧ y % 100 ≠ 0) ∨ y % 400 = 0 := (isLeap_iff y).mp hl
    norm_num
    unfold daysBeforeYear
    omega

theorem predDate_spec (x : PDate) (hv : validDate x) (h : 2 ≤ toOrdinal x) :
    validDate (predDate x) ∧ toOrdinal (predDate x) = toOrdinal x - 1 ∧
      (predDate x).y ≤ x.y := by
  obtain ⟨y, m, d⟩ := x
  obtain ⟨hy1, hy2, hm1, hm2, hd1, hd2⟩ := hv
  dsimp only at hy1 hy2 hm1 hm2 hd1 hd2
  have hord : toOrdinal ⟨y, m, d⟩ = daysBeforeYear y + daysBeforeMonth y m + d := rfl
  unfold predDate
  dsimp only
  by_cases hd : 2 ≤ d
  · rw [if_pos hd]
    refine ⟨⟨hy1, hy2, hm1, hm2, show 1 ≤ d - 1 by omega,
      show d - 1 ≤ daysInMonth y m by omega⟩, ?_, show y ≤ y from le_refl y⟩
    show daysBeforeYear y + daysBeforeMonth y m + (d - 1)
      = toOrdinal ⟨y, m, d⟩ - 1
    rw [hord]
    omega
  · rw [if_neg hd]
    by_cases hm : 2 ≤ m
    · rw [if_pos hm]
      have hstep := daysBeforeMonth_step y m hm hm2
      refine ⟨⟨hy1, hy2, show 1 ≤ m - 1 by omega, show m - 1 ≤ 12 by omega,
        show 1 ≤ daysInMonth y (m - 1) from daysInMonth_pos _ _,
        show daysInMonth y (m - 1) ≤ daysInMonth y (m - 1) from le_refl _⟩,
        ?_, show y ≤ y from le_refl y⟩
      show daysBeforeYear y + daysBeforeMonth y (m - 1) + daysInMonth y (m - 1)
        = toOrdinal ⟨y, m, d⟩ - 1
      rw [hord]
      omega
    · rw [if_neg hm]
      have hm1' : m = 1 := by omega
      have hd1' : d = 1 := by omega
      have hy' : 2 ≤ y := by
        by_contra hc
        have hy1'' : y = 1 := by omega
        subst hy1'' hm1' hd1'
        simp [toOrdinal, daysBeforeYear, daysBeforeMonth] at h
      rw [if_pos hy']
      subst hm1' hd1'
      have h12 : daysInMonth (y - 1) 12 = 31 := by
        unfold daysInMonth
        rw [if_neg (by omega), if_neg (by omega)]
      refine ⟨⟨show 1 ≤ y - 1 by omega, show y - 1 ≤ 9999 by omega,
        show 1 ≤ 12 by omega, show 12 ≤ 12 by omega, show 1 ≤ 31 by omega,
        show 31 ≤ daysInMonth (y - 1) 12 from h12 ▸ le_refl 31⟩,
        ?_, show y - 1 ≤ y by omega⟩
      show daysBeforeYear (y - 1) + daysBeforeMonth (y - 1) 12 + 31
        = toOrdinal ⟨y, 1, 1⟩ - 1
      rw [hord]
      have hb := daysBeforeMonth_twelve (y - 1)
      rw [h12] at hb
      have hy'' := daysBeforeYear_succ (y - 1) (by omega)
      have hyy : (y - 1) + 1 = y := by omega
      rw [hyy] at hy''
      have hbm1 : daysBeforeMonth y 1 = 0 := by simp [daysBeforeMonth]
      rw [hbm1, hy'']
      omega

theorem predN_spec (n : Nat) (x : PDate) (hv : validDate x) (h : n < toOrdinal x) :
    validDate (predN n x) ∧ toOrdinal (predN n x) = toOrdinal x - n ∧
      (predN n x).y ≤ x.y := by
  induction n generalizing x with
  | zero => exact ⟨hv, by simp [predN], le_refl _⟩
  | succ k ih =>
    have hstep := predDate_spec x hv (by omega)
    have hrec := ih (predDate x) hstep.1 (by omega)
    refine ⟨hrec.1, ?_, le_trans hrec.2.2 hstep.2.2⟩
    simp only [predN]
    omega

theorem toOrdinal_pos (x : PDate) (hv : validDate x) : 1 ≤ toOrdinal x := by
  obtain ⟨hy1, _, _, _, hd1, _⟩ := hv
  unfold toOrdinal
  omega

theorem toOrdinal_ge_of_year_ge_two (x : PDate) (hv : validDate x) (h : 2 ≤ x.y) :
    366 ≤ toOrdinal x := by
  obtain ⟨hy1, hy2, hm1, hm2, hd1, hd2⟩ := hv
  unfold toOrdinal daysBeforeYear
  have h365 : 365 ≤ 365 * (x.y - 1) := by omega
  have hdiv : (x.y - 1) / 100 ≤ (x.y - 1) / 4 :=
    Nat.div_le_div_left (by norm_num) (by norm_num)
  omega

/-! ### Date strings

`renderDate` models `dt.strftime("%Y-%m-%d")` (zero-padded fields; CPython
pads the year to four digits on the platforms the repository targets).
`parseDate` models `datetime.strptime(s, "%Y-%m-%d")`: CPython compiles the
format to the regex `\d\d\d\d-(1[0-2]|0[1-9]|[1-9])-(3[01]|[12]\d|0[1-9]|[1-9])`
anchored on both sides, then validates the triple through the
`datetime.date` constructor (year at least 1, day within the month).
Character classes are expressed through `Char.toNat` codes (48 is the digit
zero, 45 the dash). -/

/-- The decimal digit character for `n < 10`. -/
def dChar (n : Nat) : Char := Char.ofNat (48 + n)

/-- Numeric value of a digit character. -/
def dv (c : Char) : Nat := c.toNat - 48

/-- Two-digit zero-padded rendering (`%m`, `%d`). -/
def pad2 (n : Nat) : List Char := [dChar (n / 10), dChar (n % 10)]

/-- Four-digit zero-padded rendering (`%Y`). -/
def pad4 (n : Nat) : List Char :=
  [dChar (n / 1000), dChar (n / 100 % 10), dChar (n / 10 % 10), dChar (n % 10)]

def renderChars (x : PDate) : List Char :=
  pad4 x.y ++ '-' :: (pad2 x.m ++ '-' :: pad2 x.d)

/-- Render as `dt.strftime("%Y-%m-%d")` does. -/
def renderDate (x : PDate) : String := String.mk (renderChars x)

/-- Day field: the regex alternation `3[01]|[12]\d|0[1-9]|[1-9]`, which must
consume the whole remaining input (strptime rejects unconverted data). -/
def parseDay (cs : List Char) : Option Nat :=
  match cs with
  | [c1, c2] =>
    if c1.toNat = 51 ∧ (c2.toNat = 48 ∨ c2.toNat = 49) then some (30 + dv c2)
    else if (c1.toNat = 49 ∨ c1.toNat = 50) ∧ 48 ≤ c2.toNat ∧ c2.toNat ≤ 57 then
      some (dv c1 * 10 + dv c2)
    else if c1.toNat = 48 ∧ 49 ≤ c2.toNat ∧ c2.toNat ≤ 57 then some (dv c2)
    else none
  | [c1] => if 49 ≤ c1.toNat ∧ c1.toNat ≤ 57 then some (dv c1) else none
  | _ => none

/-- Month via the two-character alternatives `1[0-2]|0[1-9]`, followed by the
literal dash and the day field. -/
def parseMD2 (cs : List Char) : Option (Nat × Nat) :=
  match cs with
  | c1 :: c2 :: c3 :: ds =>
    if c3.toNat = 45 then
      if c1.toNat = 49 ∧ 48 ≤ c2.toNat ∧ c2.toNat ≤ 50 then
        (parseDay ds).map (fun d => (10 + dv c2, d))
      else if c1.toNat = 48 ∧ 49 ≤ c2.toNat ∧ c2.toNat ≤ 57 then
        (parseDay ds).map (fun d => (dv c2, d))
      else none
    else none
  | _ => none

/-- Month via the one-character alternative `[1-9]`, followed by the literal
dash and the day field. -/
def parseMD1 (cs : List Char) : Option (Nat × Nat) :=
  match cs with
  | c1 :: c2 :: ds =>
    if c2.toNat = 45 ∧ 49 ≤ c1.toNat ∧ c1.toNat ≤ 57 then
      (parseDay ds).map (fun d => (dv c1, d))
    else none
  | _ => none

/-- Month-and-day: regex alternation is ordered with backtracking, so the
two-character month alternatives are tried (with the whole continuation)
before the one-character one. -/
def parseMD (cs : List Char) : Option (Nat × Nat) :=
  match parseMD2 cs with
  | some md => some md
  | none => parseMD1 cs

/-- Full `strptime(s, "%Y-%m-%d")`: four digit characters, a dash, the
month/day fields, then the `datetime.date` constructor validation. -/
def parseChars (cs : List Char) : Option PDate :=
  match cs with
  | c1 :: c2 :: c3 :: c4 :: c5 :: rest =>
    if (48 ≤ c1.toNat ∧ c1.toNat ≤ 57) ∧ (48 ≤ c2.toNat ∧ c2.toNat ≤ 57) ∧
        (48 ≤ c3.toNat ∧ c3.toNat ≤ 57) ∧ (48 ≤ c4.toNat ∧ c4.toNat ≤ 57) ∧
        c5.toNat = 45 then
      match parseMD rest with
      | some (m, d) =>
        let yv := dv c1 * 1000 + dv c2 * 100 + dv c3 * 10 + dv c4
        if 1 ≤ yv ∧ d ≤ daysInMonth yv m then some ⟨yv, m, d⟩ else none
      | none => none
    else none
  | _ => none

/-- Parse as `datetime.strptime(s, "%Y-%m-%d")` does, returning `none` where Python raises
`ValueError`. -/
def parseDate (s : String) : Option PDate := parseChars s.data

theorem toNat_dChar (n : Nat) (h : n < 10) : (dChar n).toNat = 48 + n := by
  interval_cases n <;> rfl

theorem parseDay_pad2 (d : Nat) (h1 : 1 ≤ d) (h2 : d ≤ 31) :
    parseDay (pad2 d) = some d := by
  have hq : d / 10 < 10 := by omega
  have hr : d % 10 < 10 := by omega
  simp only [pad2, parseDay, dv, toNat_dChar _ hq, toNat_dChar _ hr]
  split_ifs with ha hb hc
  · simp only [Option.some.injEq]; omega
  · simp only [Option.some.injEq]; omega
  · simp only [Option.some.injEq]; omega
  · exfalso; omega

theorem parseMD_pad2 (m d : Nat) (hm1 : 1 ≤ m) (hm2 : m ≤ 12)
    (hd1 : 1 ≤ d) (hd2 : d ≤ 31) :
    parseMD (pad2 m ++ '-' :: pad2 d) = some (m, d) := by
  have hq : m / 10 < 10 := by omega
  have hr : m % 10 < 10 := by omega
  have hdash : ('-' : Char).toNat = 45 := rfl
  have hshape : pad2 m ++ '-' :: pad2 d
      = dChar (m / 10) :: dChar (m % 10) :: '-' :: pad2 d := by
    simp [pad2]
  have h2 : parseMD2 (pad2 m ++ '-' :: pad2 d) = some (m, d) := by
    rw [hshape]
    simp only [parseMD2, dv, toNat_dChar _ hq, toNat_dChar _ hr]
    rw [if_pos hdash, parseDay_pad2 d hd1 hd2]
    by_cases h10 : 10 ≤ m
    · rw [if_pos (by omega)]
      simp only [Option.map_some', Option.some.injEq, Prod.mk.injEq]
      exact ⟨by omega, trivial⟩
    · rw [if_neg (by omega), if_pos (by omega)]
      simp only [Option.map_some', Option.some.injEq, Prod.mk.injEq]
      exact ⟨by omega, trivial⟩
  simp only [parseMD, h2]

theorem parseDate_renderDate (x : PDate) (hv : validDate x) :
    parseDate (renderDate x) = some x := by
  obtain ⟨y, m, d⟩ := x
  obtain ⟨hy1, hy2, hm1, hm2, hd1, hd2⟩ := hv
  dsimp only at hy1 hy2 hm1 hm2 hd1 hd2
  have q1 : y / 1000 < 10 := by omega
  have q2 : y / 100 % 10 < 10 := by omega
  have q3 : y / 10 % 10 < 10 := by omega
  have q4 : y % 10 < 10 := by omega
  have hdash : ('-' : Char).toNat = 45 := rfl
  have hshape : renderChars ⟨y, m, d⟩
      = dChar (y / 1000) :: dChar (y / 100 % 10) :: dChar (y / 10 % 10) ::
        dChar (y % 10) :: '-' :: (pad2 m ++ '-' :: pad2 d) := by
    simp [renderChars, pad4]
  show parseChars (renderChars ⟨y, m, d⟩) = some ⟨y, m, d⟩
  rw [hshape]
  simp only [parseChars, dv, toNat_dChar _ q1, toNat_dChar _ q2, toNat_dChar _ q3,
    toNat_dChar _ q4, hdash]
  rw [if_pos (by refine ⟨⟨by omega, by omega⟩, ⟨by omega, by omega⟩,
    ⟨by omega, by omega⟩, ⟨by omega, by omega⟩, trivial⟩)]
  rw [parseMD_pad2 m d hm1 hm2 hd1 (le_trans hd2 (daysInMonth_le y m))]
  have hy : (48 + y / 1000 - 48) * 1000 + (48 + y / 100 % 10 - 48) * 100 +
      (48 + y / 10 % 10 - 48) * 10 + (48 + y % 10 - 48) = y := by omega
  simp only [hy]
  rw [if_pos ⟨hy1, hd2⟩]

theorem parseDay_bounds (cs : List Char) (d : Nat) (h : parseDay cs = some d) :
    1 ≤ d ∧ d ≤ 31 := by
  unfold parseDay at h
  split at h
  · split_ifs at h with h1 h2 h3
    · injection h with h
      unfold dv at h
      omega
    · injection h with h
      unfold dv at h
      omega
    · injection h with h
      unfold dv at h
      omega
  · split_ifs at h with h1
    injection h with h
    unfold dv at h
    omega
  · exact absurd h (by simp)

theorem parseMD2_bounds (cs : List Char) (m d : Nat) (h : parseMD2 cs = some (m, d)) :
    1 ≤ m ∧ m ≤ 12 ∧ 1 ≤ d ∧ d ≤ 31 := by
  unfold parseMD2 at h
  split at h
  · split_ifs at h with h45 h1 h2
    · rcases hday : parseDay _ with _ | dd <;> rw [hday] at h
      · exact absurd h (by simp)
      · simp only [Option.map_some', Option.some.injEq, Prod.mk.injEq] at h
        obtain ⟨hm, hd⟩ := h
        have hdb := parseDay_bounds _ _ hday
        unfold dv at hm
        omega
    · rcases hday : parseDay _ with _ | dd <;> rw [hday] at h
      · exact absurd h (by simp)
      · simp only [Option.map_some', Option.some.injEq, Prod.mk.injEq] at h
        obtain ⟨hm, hd⟩ := h
        have hdb := parseDay_bounds _ _ hday
        unfold dv at hm
        omega
  · exact absurd h (by simp)

theorem parseMD1_bounds (cs : List Char) (m d : Nat) (h : parseMD1 cs = some (m, d)) :
    1 ≤ m ∧ m ≤ 12 ∧ 1 ≤ d ∧ d ≤ 31 := by
  unfold parseMD1 at h
  split at h
  · split_ifs at h with h1
    rcases hday : parseDay _ with _ | dd <;> rw [hday] at h
    · exact absurd h (by simp)
    · simp only [Option.map_some', Option.some.injEq, Prod.mk.injEq] at h
      obtain ⟨hm, hd⟩ := h
      have hdb := parseDay_bounds _ _ hday
      unfold dv at hm
      omega
  · exact absurd h (by simp)

theorem parseMD_bounds (cs : List Char) (m d : Nat) (h : parseMD cs = some (m, d)) :
    1 ≤ m ∧ m ≤ 12 ∧ 1 ≤ d ∧ d ≤ 31 := by
  unfold parseMD at h
  split at h <;> rename_i h2
  · rename_i md
    obtain rfl : md = (m, d) := by injection h
    exact parseMD2_bounds _ _ _ h2
  · exact parseMD1_bounds _ _ _ h

theorem parseChars_valid (cs : List Char) (x : PDate) (h : parseChars cs = some x) :
    validDate x := by
  unfold parseChars at h
  split at h
  · split_ifs at h with hdig
    rcases hmd : parseMD _ with _ | md <;> rw [hmd] at h
    · exact absurd h (by simp)
    · obtain ⟨m, d⟩ := md
      simp only at h
      have hb := parseMD_bounds _ _ _ hmd
      split_ifs at h with hok
      simp only [Option.some.injEq] at h
      subst h
      unfold dv at hok ⊢
      refine ⟨hok.1, ?_, hb.1, hb.2.1, hb.2.2.1, hok.2⟩
      show (_ * 1000 + _ * 100 + _ * 10 + _ : Nat) ≤ 9999
      omega
  · exact absurd h (by simp)

theorem parseDate_valid (s : String) (x : PDate) (h : parseDate s = some x) :
    validDate x := parseChars_valid s.data x h

/-! ### llama_api.fix_date_parameters

The source parses both strings inside one `try` (a failure of either defaults
both), compares the parsed `datetime`s (`.date()` equality is triple equality
since the time part is always midnight; `>` is chronological order, i.e.
ordinal order), and re-renders with `strftime("%Y-%m-%d")` on every path.
`datetime.today()` is passed explicitly as `today`. -/
def fix_date_parameters (today : PDate) (start_date end_date : String) :
    String × String :=
  let parsed : PDate × PDate :=
    match parseDate start_date, parseDate end_date with
    | some s, some e => (s, e)
    | _, _ => (predN 365 today, today)
  if parsed.1 = parsed.2 then
    (renderDate (predN 365 today), renderDate today)
  else if toOrdinal parsed.2 < toOrdinal parsed.1 then
    (renderDate (predN 365 parsed.2), renderDate parsed.2)
  else
    (renderDate parsed.1, renderDate parsed.2)

theorem fix_date_parameters_default (today : PDate) (s e : String)
    (h : parseDate s = none ∨ parseDate e = none) :
    fix_date_parameters today s e
      = (renderDate (predN 365 today), renderDate today) := by
  unfold fix_date_parameters
  rcases h with h | h
  · rw [h]
    dsimp only
    split_ifs <;> rfl
  · rw [h]
    rcases hs : parseDate s with _ | ds <;>
      (dsimp only; split_ifs <;> rfl)

theorem fix_date_parameters_parsed (today : PDate) (s e : String) (ds de : PDate)
    (hs : parseDate s = some ds) (he : parseDate e = some de) :
    fix_date_parameters today s e
      = if ds = de then
          (renderDate (predN 365 today), renderDate today)
        else if toOrdinal de < toOrdinal ds then
          (renderDate (predN 365 de), renderDate de)
        else
          (renderDate ds, renderDate de) := by
  unfold fix_date_parameters
  rw [hs, he]

theorem predN_365_ne (t : PDate) (hv : validDate t) (hy : 2 ≤ t.y) :
    predN 365 t ≠ t := by
  have hord := toOrdinal_ge_of_year_ge_two t hv hy
  have hspec := predN_spec 365 t hv (by omega)
  intro heq
  have := congrArg toOrdinal heq
  omega

/-- Any pair of valid dates in chronological order, fed to the resolver as
canonical renderings, passes through as those same renderings. -/
theorem fix_render_of_le (today ds de : PDate) (hds : validDate ds)
    (hde : validDate de) (hne : ds ≠ de)
    (hord : ¬ toOrdinal de < toOrdinal ds) :
    fix_date_parameters today (renderDate ds) (renderDate de)
      = (renderDate ds, renderDate de) := by
  rw [fix_date_parameters_parsed today _ _ ds de
    (parseDate_renderDate ds hds) (parseDate_renderDate de hde)]
  rw [if_neg hne, if_neg hord]

/-- C1 (amended), full case analysis of the resolver: either-parse-failure
and same-day inputs yield the canonical window `[today - 365 days, today]`;
`start > end` yields `(end - 365 days, end)`; `start < end` yields the parsed
dates re-rendered in zero-padded form (hence already-zero-padded inputs pass
through verbatim). -/
theorem claim1_resolver_cases (today : PDate) (s e : String) :
    ((parseDate s = none ∨ parseDate e = none) →
      fix_date_parameters today s e
        = (renderDate (predN 365 today), renderDate today)) ∧
    (∀ ds de, parseDate s = some ds → parseDate e = some de →
      (ds = de →
        fix_date_parameters today s e
          = (renderDate (predN 365 today), renderDate today)) ∧
      (toOrdinal de < toOrdinal ds →
        fix_date_parameters today s e
          = (renderDate (predN 365 de), renderDate de)) ∧
      (toOrdinal ds < toOrdinal de →
        fix_date_parameters today s e = (renderDate ds, renderDate de))) := by
  constructor
  · intro h
    exact fix_date_parameters_default today s e h
  · intro ds de hs he
    have hvds := parseDate_valid s ds hs
    have hvde := parseDate_valid e de he
    rw [fix_date_parameters_parsed today s e ds de hs he]
    refine ⟨?_, ?_, ?_⟩
    · intro hEq
      rw [if_pos hEq]
    · intro hlt
      have hne : ds ≠ de := by
        intro hEq
        rw [hEq] at hlt
        omega
      rw [if_neg hne, if_pos hlt]
    · intro hlt
      have hne : ds ≠ de := by
        intro hEq
        rw [hEq] at hlt
        omega
      rw [if_neg hne, if_neg (by omega)]

/-- C1 refuted as literally stated: a parseable, correctly ordered (but not
zero-padded) pair is not returned unchanged — `strftime` re-renders it with
zero padding. -/
theorem claim1_padding_counterexample :
    parseDate "2024-1-2" = some ⟨2024, 1, 2⟩ ∧
    parseDate "2024-6-3" = some ⟨2024, 6, 3⟩ ∧
    toOrdinal (⟨2024, 1, 2⟩ : PDate) < toOrdinal (⟨2024, 6, 3⟩ : PDate) ∧
    fix_date_parameters ⟨2025, 10, 12⟩ "2024-1-2" "2024-6-3"
      ≠ ("2024-1-2", "2024-6-3") ∧
    fix_date_parameters ⟨2025, 10, 12⟩ "2024-1-2" "2024-6-3"
      = ("2024-01-02", "2024-06-03") := by
  refine ⟨by decide, by decide, by decide, ?_, ?_⟩ <;> decide

theorem claim1_witness :
    fix_date_parameters ⟨2025, 10, 12⟩ "2024-01-02" "2024-06-03"
      = ("2024-01-02", "2024-06-03") := by
  have h := (claim1_resolver_cases ⟨2025, 10, 12⟩ "2024-01-02" "2024-06-03").2
    ⟨2024, 1, 2⟩ ⟨2024, 6, 3⟩ (by decide) (by decide)
  have h3 := h.2.2 (by decide)
  rw [h3]
  decide

/-- C9 (amended): every resolver output is a fixed point of the resolver, and
already-zero-padded parseable pairs with `start < end` pass through unchanged
(non-padded parseable pairs are re-rendered zero-padded, see the
counterexample). -/
theorem claim9_resolver_idempotent (today : PDate) (s e : String)
    (htv : validDate today) (hty : 2 ≤ today.y)
    (hey : ∀ de, parseDate e = some de → 2 ≤ de.y) :
    (fix_date_parameters today (fix_date_parameters today s e).1
        (fix_date_parameters today s e).2
      = fix_date_parameters today s e) ∧
    (∀ ds de, validDate ds → validDate de → toOrdinal ds < toOrdinal de →
      fix_date_parameters today (renderDate ds) (renderDate de)
        = (renderDate ds, renderDate de)) := by
  have hto : 366 ≤ toOrdinal today := toOrdinal_ge_of_year_ge_two today htv hty
  have htspec := predN_spec 365 today htv (by omega)
  have hfixedDefault :
      fix_date_parameters today (renderDate (predN 365 today)) (renderDate today)
        = (renderDate (predN 365 today), renderDate today) := by
    refine fix_render_of_le today _ _ htspec.1 htv (predN_365_ne today htv hty) ?_
    omega
  constructor
  · rcases hs : parseDate s with _ | ds
    · rw [fix_date_parameters_default today s e (Or.inl hs)]
      exact hfixedDefault
    · rcases he : parseDate e with _ | de
      · rw [fix_date_parameters_default today s e (Or.inr he)]
        exact hfixedDefault
      · have hvds := parseDate_valid s ds hs
        have hvde := parseDate_valid e de he
        have hdey : 2 ≤ de.y := hey de he
        have hdeo : 366 ≤ toOrdinal de := toOrdinal_ge_of_year_ge_two de hvde hdey
        have hdespec := predN_spec 365 de hvde (by omega)
        rw [fix_date_parameters_parsed today s e ds de hs he]
        by_cases hEq : ds = de
        · rw [if_pos hEq]
          exact hfixedDefault
        · rw [if_neg hEq]
          by_cases hgt : toOrdinal de < toOrdinal ds
          · rw [if_pos hgt]
            refine fix_render_of_le today _ _ hdespec.1 hvde
              (predN_365_ne de hvde hdey) ?_
            omega
          · rw [if_neg hgt]
            exact fix_render_of_le today ds de hvds hvde hEq hgt
  · intro ds de hds hde hlt
    refine fix_render_of_le today ds de hds hde ?_ (by omega)
    intro hEq
    rw [hEq] at hlt
    omega

/-- C9 refuted as literally stated: a parseable `start < end` pair that is
not zero-padded does not pass through unchanged. -/
theorem claim9_padding_counterexample :
    parseDate "2023-7-4" = some ⟨2023, 7, 4⟩ ∧
    parseDate "2023-12-25" = some ⟨2023, 12, 25⟩ ∧
    toOrdinal (⟨2023, 7, 4⟩ : PDate) < toOrdinal (⟨2023, 12, 25⟩ : PDate) ∧
    fix_date_parameters ⟨2025, 10, 12⟩ "2023-7-4" "2023-12-25"
      ≠ ("2023-7-4", "2023-12-25") := by
  refine ⟨by decide, by decide, by decide, ?_⟩
  decide

theorem claim9_witness :
    fix_date_parameters ⟨2025, 10, 12⟩
        (fix_date_parameters ⟨2025, 10, 12⟩ "not-a-date" "2025-06-01").1
        (fix_date_parameters ⟨2025, 10, 12⟩ "not-a-date" "2025-06-01").2
      = fix_date_parameters ⟨2025, 10, 12⟩ "not-a-date" "2025-06-01" := by
  refine (claim9_resolver_idempotent ⟨2025, 10, 12⟩ "not-a-date" "2025-06-01"
    (by decide) (by decide) ?_).1
  intro de h
  have hp : parseDate "2025-06-01" = some ⟨2025, 6, 1⟩ := by decide
  rw [hp] at h
  injection h with h
  rw [← h]
  decide

/-! ### fred_api.call_fred_api and llama_api.call_fred_api_with_fallback

The fetch result dict.  Python's success dict carries `series_id`,
`indicator_name`, `data` and optionally `analysis`; the failure dict carries
only `error`.  Absent keys are modelled as `none` / `[]`
(`result.get('data')` is falsy exactly when the key is absent or the list is
empty, which is `data = []` here).  The analysis payload type is left as a
parameter `α` since the fetcher never inspects it. -/
structure Obs where
  date : String
  value : String
deriving DecidableEq, Repr, Inhabited

structure FredResult (α : Type) where
  success : Bool
  series_id : Option String := none
  indicator_name : Option String := none
  data : List Obs := []
  analysis : Option α := none
  error : Option String := none
  tool_call_id : Option String := none
deriving DecidableEq

instance {α : Type} : Inhabited (FredResult α) := ⟨{success := false}⟩

/-- Metadata entry from `output.json` (`load_indicator_metadata`). -/
structure Meta where
  period : String
  indicator : String
deriving DecidableEq, Repr

/-- The HTTP response of the FRED observations endpoint, as seen by
`call_fred_api`: status code, raw text, and the parsed `observations` key
when present. -/
structure HttpResponse where
  status_code : Nat
  text : String
  observations : Option (List Obs)
deriving DecidableEq, Repr

/-- The failure dict built at the bottom of `call_fred_api`. -/
def fredFailure (α : Type) (series_id : String) (resp : HttpResponse) :
    FredResult α :=
  { success := false,
    error := some ("Failed to fetch " ++ series_id ++ ": Status "
      ++ toString resp.status_code ++ ", Response: " ++ resp.text) }

/-- Embedding of `fred_api.call_fred_api(series_id, start_date, end_date)`.

The network call is made explicit: `resp` is the `requests.get` response for
the request the function builds from `series_id`, `start_date`, `end_date`
and the frequency hint.  `analyze obs` stands for
`TimeSeriesAnalyzer(obs).generate_summary()`, with `none` modelling a raised
exception (caught by the `try/except`, which then returns the raw data
without `analysis`).  In the source as shipped that call always raises
(`generate_summary` requires an `indicator_name` positional argument that is
not passed), so the `some` branch is dead code there; keeping `analyze`
abstract covers both that state and the intended one. -/
def call_fred_api (α : Type) (lookup : String → Option Meta)
    (analyze : List Obs → Option α) (series_id start_date end_date : String)
    (resp : HttpResponse) : FredResult α :=
  let indicator_name :=
    match lookup series_id with
    | some md => md.indicator
    | none => series_id
  if resp.status_code = 200 then
    match resp.observations with
    | some obs =>
      if 0 < obs.length then
        match analyze obs with
        | some a =>
          { success := true, series_id := some series_id,
            indicator_name := some indicator_name, data := obs,
            analysis := some a }
        | none =>
          { success := true, series_id := some series_id,
            indicator_name := some indicator_name, data := obs }
      else fredFailure α series_id resp
    | none => fredFailure α series_id resp
  else fredFailure α series_id resp

/-- The retry guard of `call_fred_api_with_fallback`:
`result['success'] and result.get('data')`. -/
def okResult {α : Type} (r : FredResult α) : Bool :=
  r.success && !r.data.isEmpty

/-- The retry loop of `llama_api.call_fred_api_with_fallback`, recursing on
the number of attempts left. `fetchOne s` is one `call_fred_api` call at
start date `s` (the end date and every other argument are fixed over the
loop).  On a non-final attempt whose result fails the guard, the start date
is re-parsed, shifted 365 days back and re-rendered inside a `try` whose
`except` breaks out of the loop returning the current result (this also
covers Python's `OverflowError` on dates too early to shift, hence the
ordinal guard). -/
def fallbackLoop {α : Type} (fetchOne : String → FredResult α) :
    Nat → String → FredResult α
  | 0, s => fetchOne s
  | 1, s => fetchOne s
  | (r + 2), s =>
    let res := fetchOne s
    if okResult res then res
    else
      match parseDate s with
      | some ds =>
        if 366 ≤ toOrdinal ds then
          fallbackLoop fetchOne (r + 1) (renderDate (predN 365 ds))
        else res
      | none => res

/-- Embedding of `llama_api.call_fred_api_with_fallback(series_id, start_date, end_date,
max_retries, compact_mode)`.  `fetch s e` stands for
`call_fred_api(series_id, s, e, compact_mode=compact_mode)` with the ambient
network state; `series_id` and `compact_mode` are fixed over the loop, so
they are folded into `fetch`.  Python's `max_retries = 0` would hit an
unbound local (`NameError`); the model arbitrarily returns the single fetch
there, and no theorem uses that case. -/
def call_fred_api_with_fallback {α : Type}
    (fetch : String → String → FredResult α)
    (start_date end_date : String) (max_retries : Nat) : FredResult α :=
  fallbackLoop (fun s => fetch s end_date) max_retries start_date

/-- C3: with `max_retries = 2`, attempt 1 fetches at the given `(start, end)`
verbatim; if its result fails the success-and-nonempty guard, the returned
value is exactly the result of attempt 2 at `(start - 365 days, end)` — the
window widened backward with `end` unchanged — whatever that second result's
success/empty status (exhaustion returns the last result as-is); if attempt 1
passes the guard its result is returned directly. -/
theorem claim3_fallback_widens (α : Type)
    (fetch : String → String → FredResult α) (s e : String) (ds : PDate)
    (hp : parseDate s = some ds) (hy : 2 ≤ ds.y) :
    (okResult (fetch s e) = false →
      call_fred_api_with_fallback fetch s e 2
        = fetch (renderDate (predN 365 ds)) e) ∧
    (okResult (fetch s e) = true →
      call_fred_api_with_fallback fetch s e 2 = fetch s e) := by
  have hv := parseDate_valid s ds hp
  have ho : 366 ≤ toOrdinal ds := toOrdinal_ge_of_year_ge_two ds hv hy
  unfold call_fred_api_with_fallback fallbackLoop
  dsimp only
  constructor
  · intro hok
    rw [hok]
    simp only [Bool.false_eq_true, if_false, hp]
    rw [if_pos ho]
    rfl
  · intro hok
    rw [hok]
    simp only [if_true]

def claim3FetchExample : String → String → FredResult Nat := fun s _ =>
  if s = "2023-01-01" then { success := true, data := [] }
  else { success := true, data := [⟨"2022-06-01", "1.0"⟩] }

theorem claim3_witness :
    call_fred_api_with_fallback claim3FetchExample "2023-01-01" "2024-01-01" 2
      = claim3FetchExample "2022-01-01" "2024-01-01" := by
  have h := (claim3_fallback_widens Nat claim3FetchExample "2023-01-01"
    "2024-01-01" ⟨2023, 1, 1⟩ (by decide) (by decide)).1 (by decide)
  rw [h]
  have hd : renderDate (predN 365 (⟨2023, 1, 1⟩ : PDate)) = "2022-01-01" := by
    decide
  rw [hd]

/-- C2 refuted as stated: on an HTTP 200 response whose observation list is
empty, `call_fred_api` does not return a success — the `len > 0` guard routes
it to the failure dict. -/
theorem claim2_empty_counterexample :
    (call_fred_api Nat (fun _ => none) (fun _ => none) "GDP"
      "2024-01-01" "2024-06-01" ⟨200, "empty-body", some []⟩).success = false ∧
    (call_fred_api Nat (fun _ => none) (fun _ => none) "GDP"
      "2024-01-01" "2024-06-01" ⟨200, "empty-body", some []⟩).error
      = some ("Failed to fetch GDP: Status " ++ toString (200 : Nat)
          ++ ", Response: empty-body") := by
  exact ⟨rfl, rfl⟩

/-- C2 (amended): on HTTP 200 with zero observations the fetcher returns
`success = false` with an empty data list, no analysis, and the formatted
error string — the empty result is reported as a failed fetch (the fallback
controller still retries on it, since its guard needs success and nonempty
data). -/
theorem claim2_empty_result_shape (α : Type) (lookup : String → Option Meta)
    (analyze : List Obs → Option α) (series_id start_date end_date text : String) :
    (call_fred_api α lookup analyze series_id start_date end_date
        ⟨200, text, some []⟩).success = false ∧
    (call_fred_api α lookup analyze series_id start_date end_date
        ⟨200, text, some []⟩).data = [] ∧
    (call_fred_api α lookup analyze series_id start_date end_date
        ⟨200, text, some []⟩).analysis = none ∧
    (call_fred_api α lookup analyze series_id start_date end_date
        ⟨200, text, some []⟩).error
      = some ("Failed to fetch " ++ series_id ++ ": Status "
          ++ toString (200 : Nat) ++ ", Response: " ++ text) := by
  exact ⟨rfl, rfl, rfl, rfl⟩

/-- C4: HTTP 200 with at least one observation and an analytics engine that
raises still yields `success = true` with the raw observations and no
`analysis` field — an analytics failure never turns a successful fetch into
a failed result. -/
theorem claim4_analytics_failure_never_masks (α : Type)
    (lookup : String → Option Meta) (analyze : List Obs → Option α)
    (series_id start_date end_date text : String) (obs : List Obs)
    (hobs : obs ≠ []) (hana : analyze obs = none) :
    call_fred_api α lookup analyze series_id start_date end_date
        ⟨200, text, some obs⟩
      = { success := true, series_id := some series_id,
          indicator_name := some (match lookup series_id with
            | some md => md.indicator
            | none => series_id),
          data := obs, analysis := none, error := none, tool_call_id := none } := by
  unfold call_fred_api
  rw [if_pos rfl]
  have hlen : 0 < obs.length := List.length_pos.mpr hobs
  dsimp only
  rw [if_pos hlen, hana]

theorem claim4_witness :
    call_fred_api Nat (fun _ => none) (fun _ => none) "UNRATE"
        "2024-01-01" "2024-06-01" ⟨200, "body", some [⟨"2024-01-01", "3.9"⟩]⟩
      = { success := true, series_id := some "UNRATE",
          indicator_name := some "UNRATE",
          data := [⟨"2024-01-01", "3.9"⟩], analysis := none, error := none,
          tool_call_id := none } := by
  have h := claim4_analytics_failure_never_masks Nat (fun _ => none)
    (fun _ => none) "UNRATE" "2024-01-01" "2024-06-01" "body"
    [⟨"2024-01-01", "3.9"⟩] (by decide) rfl
  rw [h]

/-! ### metrics_computing.TimeSeriesAnalyzer

Observation values are exact rationals except where a claim is about
division-by-zero behaviour: numpy float64 division by zero does not raise, it
yields `inf`/`-inf`/`nan` with a `RuntimeWarning`, which `PyNum` models.
`round2` models Python `round(x, 2)` (round-half-to-even on the binary float;
on rationals the tie-breaking direction can differ at exact `.xx5` ties,
which no claim exercises). -/

def round2 (q : ℚ) : ℚ := ((q * 100 + 1 / 2).floor : ℤ) / 100

instance {ε α : Type} [DecidableEq ε] [DecidableEq α] : DecidableEq (Except ε α) :=
  fun x y =>
    match x, y with
    | .ok a, .ok b =>
      if h : a = b then .isTrue (by rw [h]) else .isFalse (fun hc => h (Except.ok.inj hc))
    | .error a, .error b =>
      if h : a = b then .isTrue (by rw [h]) else .isFalse (fun hc => h (Except.error.inj hc))
    | .ok _, .error _ => .isFalse (fun hc => Except.noConfusion hc)
    | .error _, .ok _ => .isFalse (fun hc => Except.noConfusion hc)

/-- A numpy float64 value: finite, one of the two infinities, or nan. -/
inductive PyNum where
  | fin : ℚ → PyNum
  | pinf
  | ninf
  | nan
deriving DecidableEq, Repr

/-- numpy division of two finite float64 values: division by zero emits a
warning and produces an infinity (or nan for 0/0) instead of raising. -/
def pyDivFin (a b : ℚ) : PyNum :=
  if b ≠ 0 then .fin (a / b)
  else if 0 < a then .pinf
  else if a < 0 then .ninf
  else .nan

/-- Multiplication of a numpy value by a finite constant. -/
def pyMulFin (x : PyNum) (c : ℚ) : PyNum :=
  match x with
  | .fin a => .fin (a * c)
  | .pinf => if 0 < c then .pinf else if c < 0 then .ninf else .nan
  | .ninf => if 0 < c then .ninf else if c < 0 then .pinf else .nan
  | .nan => .nan

/-- Python `round(x, 2)` extended to numpy values: `round(inf, 2)` is `inf`,
`round(nan, 2)` is `nan`. -/
def pyRound2 (x : PyNum) : PyNum :=
  match x with
  | .fin a => .fin (round2 a)
  | x => x

/-- Embedding of `pd.to_numeric(value, errors='coerce')` on one FRED value string:
optional sign, decimal digits with an optional fraction part; anything else
(in particular the FRED missing-value marker `"."`) coerces to NaN, i.e.
`none`.  (Exponent notation is not modelled; FRED observation values do not
use it.) -/
def parseUnsigned (cs : List Char) : Option ℚ :=
  let intPart := cs.takeWhile Char.isDigit
  let rest := cs.dropWhile Char.isDigit
  match rest with
  | [] =>
    if intPart.isEmpty then none
    else some ((intPart.foldl (fun acc c => acc * 10 + (c.toNat - 48)) 0 : Nat) : ℚ)
  | '.' :: frac =>
    if frac.all Char.isDigit ∧ (intPart ≠ [] ∨ frac ≠ []) then
      some (((intPart.foldl (fun acc c => acc * 10 + (c.toNat - 48)) 0 : Nat) : ℚ)
        + ((frac.foldl (fun acc c => acc * 10 + (c.toNat - 48)) 0 : Nat) : ℚ)
          / ((10 : ℚ) ^ frac.length))
    else none
  | _ => none

def parseNumeric (s : String) : Option ℚ :=
  match s.data with
  | '-' :: rest => (parseUnsigned rest).map (fun q => -q)
  | '+' :: rest => parseUnsigned rest
  | _ => parseUnsigned s.data

/-- Stable insertion into a date-sorted row list (`df.sort_index()`; FRED
series have no duplicate dates, so stability is immaterial). -/
def insertByDate (p : PDate × ℚ) : List (PDate × ℚ) → List (PDate × ℚ)
  | [] => [p]
  | q :: qs =>
    if toOrdinal q.1 ≤ toOrdinal p.1 then q :: insertByDate p qs
    else p :: q :: qs

def sortByDate : List (PDate × ℚ) → List (PDate × ℚ)
  | [] => []
  | p :: ps => insertByDate p (sortByDate ps)

/-- Embedding of `TimeSeriesAnalyzer._parse_json` (the whole constructor, since `__init__`
only copies the list and calls it): raise `ValueError("Input data is empty")`
on an empty *raw* list, parse all dates (`pd.to_datetime` raises on an
unparseable date), coerce values (`pd.to_numeric(..., errors='coerce')`,
never raises), drop the NaN-value rows, and sort by date. -/
def parse_json (data : List Obs) : Except String (List (PDate × ℚ)) :=
  if data.isEmpty then .error "Input data is empty"
  else
    match data.mapM (fun o =>
        (parseDate o.date).map (fun dt => (dt, parseNumeric o.value))) with
    | some rows =>
      .ok (sortByDate (rows.filterMap (fun p => p.2.map (fun v => (p.1, v)))))
    | none => .error "invalid date"

/-- The `changes['total']` dict of `calculate_changes`. -/
structure TotalChange where
  absolute : ℚ
  percentage : PyNum
  from_date : String
  to_date : String
deriving DecidableEq, Repr

/-- Embedding of `TimeSeriesAnalyzer.calculate_changes` over the parsed frame:
`iloc[0]` / `iloc[-1]` on an empty frame raise an IndexError (modelled as
`.error`); the percentage change divides by the first value with no zero
guard — numpy semantics, see `pyDivFin`. -/
def calculate_changes (df : List (PDate × ℚ)) : Except String TotalChange :=
  match df with
  | [] => .error "single positional indexer is out-of-bounds"
  | first :: rest =>
    let last := rest.getLastD first
    .ok { absolute := last.2 - first.2,
          percentage := pyRound2 (pyMulFin (pyDivFin (last.2 - first.2) first.2) 100),
          from_date := renderDate first.1,
          to_date := renderDate last.1 }

/-- Read `values[j]` of the parsed frame. -/
def dfValue (df : List (PDate × ℚ)) (j : Nat) : ℚ :=
  (df.map Prod.snd).getD j 0

/-- One row of `generate_integrated_timeseries`. -/
structure TimePoint where
  date : String
  value : ℚ
  mom_absolute : Option ℚ
  mom_percentage : Option ℚ
  yoy_absolute : Option ℚ
  yoy_percentage : Option ℚ
  inflection_type : Option String
deriving DecidableEq, Repr

instance : Inhabited TimePoint := ⟨⟨"", 0, none, none, none, none, none⟩⟩

/-- Embedding of `TimeSeriesAnalyzer.generate_integrated_timeseries`.  The
`inflection_dates` dictionary is computed by `scipy.signal.find_peaks` — an
external-library capability outside the core (spec section 1) — so it enters as
the function argument `inflections`; the
`include_inflections and len(self.df) >= 5` guard around it is kept.  MoM
uses lag 1 and YoY lag 12, each guarded by the lag index being in range and
the lagged value being nonzero, with `None` fields otherwise. -/
def generate_integrated_timeseries (df : List (PDate × ℚ))
    (include_inflections : Bool) (inflections : String → Option String) :
    List TimePoint :=
  (List.range df.length).map (fun i =>
    { date := renderDate ((df.getD i default).1),
      value := dfValue df i,
      mom_absolute :=
        if 1 ≤ i ∧ dfValue df (i - 1) ≠ 0 then
          some (round2 (dfValue df i - dfValue df (i - 1)))
        else none,
      mom_percentage :=
        if 1 ≤ i ∧ dfValue df (i - 1) ≠ 0 then
          some (round2 ((dfValue df i - dfValue df (i - 1)) / dfValue df (i - 1) * 100))
        else none,
      yoy_absolute :=
        if 12 ≤ i ∧ dfValue df (i - 12) ≠ 0 then
          some (round2 (dfValue df i - dfValue df (i - 12)))
        else none,
      yoy_percentage :=
        if 12 ≤ i ∧ dfValue df (i - 12) ≠ 0 then
          some (round2 ((dfValue df i - dfValue df (i - 12)) / dfValue df (i - 12) * 100))
        else none,
      inflection_type :=
        if include_inflections ∧ 5 ≤ df.length then
          inflections (renderDate ((df.getD i default).1))
        else none })

theorem range_map_getD {β : Type} [Inhabited β] (n i : Nat) (f : Nat → β)
    (h : i < n) : ((List.range n).map f).getD i default = f i := by
  rw [List.getD_eq_getElem?_getD, List.getElem?_map, List.getElem?_range h,
    Option.map_some', Option.getD_some]

theorem ite_some_ne_none_iff {β : Type} (c : Prop) [Decidable c] (a : β) :
    (if c then some a else none) ≠ none ↔ c := by
  split_ifs with h <;> simp [h]

theorem round2_concrete (q : ℚ) (n : ℤ) (h : (q * 100 + 1 / 2).floor = n) :
    round2 q = (n : ℚ) / 100 := by
  unfold round2
  rw [h]

/-- C5 evaluated at the failing input: a series whose earliest value is zero
does not make `calculate_changes` signal anything — the construction
succeeds and the division by zero silently yields a `+inf` percentage
(numpy float semantics), while for a nonzero earliest value the exact
formula `(last - first) / first * 100` is returned (second conjunct, at a
concrete nonzero input). -/
theorem claim5_zero_first_is_silent_inf :
    parse_json [⟨"2024-01-01", "0"⟩, ⟨"2024-02-01", "5"⟩]
      = .ok [(⟨2024, 1, 1⟩, 0), (⟨2024, 2, 1⟩, 5)] ∧
    calculate_changes [(⟨2024, 1, 1⟩, 0), (⟨2024, 2, 1⟩, 5)]
      = .ok { absolute := 5, percentage := .pinf,
              from_date := "2024-01-01", to_date := "2024-02-01" } ∧
    calculate_changes [(⟨2024, 1, 1⟩, 4), (⟨2024, 2, 1⟩, 5)]
      = .ok { absolute := 1, percentage := .fin (round2 (((5 : ℚ) - 4) / 4 * 100)),
              from_date := "2024-01-01", to_date := "2024-02-01" } := by
  refine ⟨?_, ?_, ?_⟩
  · rw [show parse_json [⟨"2024-01-01", "0"⟩, ⟨"2024-02-01", "5"⟩]
        = .ok [(⟨2024, 1, 1⟩, ((0 : Nat) : ℚ)), (⟨2024, 2, 1⟩, ((5 : Nat) : ℚ))]
      from rfl]
    norm_num
  · unfold calculate_changes
    dsimp only
    rw [show ([((⟨2024, 2, 1⟩ : PDate), (5 : ℚ))].getLastD
        ((⟨2024, 1, 1⟩ : PDate), (0 : ℚ)))
      = ((⟨2024, 2, 1⟩ : PDate), (5 : ℚ)) from rfl]
    dsimp only
    simp only [Except.ok.injEq, TotalChange.mk.injEq]
    refine ⟨by norm_num, ?_, by decide, by decide⟩
    rw [show pyDivFin ((5 : ℚ) - 0) 0 = .pinf from by unfold pyDivFin; norm_num]
    rw [show pyMulFin PyNum.pinf 100 = .pinf from by unfold pyMulFin; norm_num]
    rfl
  · unfold calculate_changes
    dsimp only
    rw [show ([((⟨2024, 2, 1⟩ : PDate), (5 : ℚ))].getLastD
        ((⟨2024, 1, 1⟩ : PDate), (4 : ℚ)))
      = ((⟨2024, 2, 1⟩ : PDate), (5 : ℚ)) from rfl]
    dsimp only
    simp only [Except.ok.injEq, TotalChange.mk.injEq]
    refine ⟨by norm_num, ?_, by decide, by decide⟩
    rw [show pyDivFin ((5 : ℚ) - 4) 4 = .fin (((5 : ℚ) - 4) / 4) from by
      unfold pyDivFin
      norm_num]
    rfl

/-- C5, general second half: whenever the earliest value is nonzero the
percentage is the finite rounded `(last - first) / first * 100`; whenever it
is zero and the last value is positive, the computation still returns
(`ok`), with a silent `+inf` percentage instead of a signalled error. -/
theorem claim5_general (first : PDate × ℚ) (rest : List (PDate × ℚ)) :
    (first.2 ≠ 0 →
      calculate_changes (first :: rest)
        = .ok { absolute := (rest.getLastD first).2 - first.2,
                percentage := .fin (round2
                  (((rest.getLastD first).2 - first.2) / first.2 * 100)),
                from_date := renderDate first.1,
                to_date := renderDate (rest.getLastD first).1 }) ∧
    (first.2 = 0 → 0 < (rest.getLastD first).2 →
      calculate_changes (first :: rest)
        = .ok { absolute := (rest.getLastD first).2 - first.2,
                percentage := .pinf,
                from_date := renderDate first.1,
                to_date := renderDate (rest.getLastD first).1 }) := by
  constructor
  · intro hne
    unfold calculate_changes
    dsimp only
    rw [show pyRound2 (pyMulFin (pyDivFin ((rest.getLastD first).2 - first.2)
        first.2) 100) = .fin (round2 (((rest.getLastD first).2 - first.2)
          / first.2 * 100)) from by
      unfold pyDivFin
      rw [if_pos hne]
      rfl]
  · intro hz hpos
    unfold calculate_changes
    dsimp only
    rw [show pyRound2 (pyMulFin (pyDivFin ((rest.getLastD first).2 - first.2)
        first.2) 100) = .pinf from by
      unfold pyDivFin
      rw [if_neg (by simp [hz]), if_pos (by rw [hz]; simpa using hpos)]
      unfold pyMulFin
      rw [if_pos (by norm_num)]
      rfl]

theorem claim5_general_witness :
    calculate_changes [((⟨2024, 1, 1⟩ : PDate), (4 : ℚ)), (⟨2024, 2, 1⟩, 6)]
      = .ok { absolute := 2, percentage := .fin 50,
              from_date := "2024-01-01", to_date := "2024-02-01" } := by
  have h := (claim5_general ((⟨2024, 1, 1⟩ : PDate), (4 : ℚ))
    [(⟨2024, 2, 1⟩, 6)]).1 (by norm_num)
  rw [h]
  simp only [Except.ok.injEq, TotalChange.mk.injEq]
  have hgl : ([((⟨2024, 2, 1⟩ : PDate), (6 : ℚ))].getLastD (⟨2024, 1, 1⟩, 4))
      = ((⟨2024, 2, 1⟩ : PDate), (6 : ℚ)) := rfl
  rw [hgl]
  refine ⟨by norm_num, ?_, by decide, by decide⟩
  rw [show ((6 : ℚ) - 4) / 4 * 100 = 50 by norm_num,
    round2_concrete 50 5000 (by rw [Rat.floor_def']; norm_num)]
  norm_num

/-- C6: in the integrated series, for every in-range index `i` the MoM
fields are present iff `i ≥ 1` and the value at `i - 1` is nonzero, the YoY
fields are present iff `i ≥ 12` and the value at `i - 12` is nonzero; when
present they are the (rounded) absolute and percentage changes against the
lagged value, and when absent they are `None` (null), not zero. -/
theorem claim6_lag_fields (df : List (PDate × ℚ)) (inc : Bool)
    (infl : String → Option String) (i : Nat) (hi : i < df.length) :
    (((generate_integrated_timeseries df inc infl).getD i default).mom_absolute
        ≠ none ↔ (1 ≤ i ∧ dfValue df (i - 1) ≠ 0)) ∧
    (((generate_integrated_timeseries df inc infl).getD i default).mom_percentage
        ≠ none ↔ (1 ≤ i ∧ dfValue df (i - 1) ≠ 0)) ∧
    (1 ≤ i → dfValue df (i - 1) ≠ 0 →
      ((generate_integrated_timeseries df inc infl).getD i default).mom_absolute
          = some (round2 (dfValue df i - dfValue df (i - 1))) ∧
      ((generate_integrated_timeseries df inc infl).getD i default).mom_percentage
          = some (round2 ((dfValue df i - dfValue df (i - 1))
              / dfValue df (i - 1) * 100))) ∧
    (((generate_integrated_timeseries df inc infl).getD i default).yoy_absolute
        ≠ none ↔ (12 ≤ i ∧ dfValue df (i - 12) ≠ 0)) ∧
    (((generate_integrated_timeseries df inc infl).getD i default).yoy_percentage
        ≠ none ↔ (12 ≤ i ∧ dfValue df (i - 12) ≠ 0)) ∧
    (12 ≤ i → dfValue df (i - 12) ≠ 0 →
      ((generate_integrated_timeseries df inc infl).getD i default).yoy_absolute
          = some (round2 (dfValue df i - dfValue df (i - 12))) ∧
      ((generate_integrated_timeseries df inc infl).getD i default).yoy_percentage
          = some (round2 ((dfValue df i - dfValue df (i - 12))
              / dfValue df (i - 12) * 100))) := by
  unfold generate_integrated_timeseries
  rw [range_map_getD df.length i _ hi]
  dsimp only
  refine ⟨ite_some_ne_none_iff _ _, ite_some_ne_none_iff _ _, ?_,
    ite_some_ne_none_iff _ _, ite_some_ne_none_iff _ _, ?_⟩
  · intro h1 h2
    rw [if_pos ⟨h1, h2⟩, if_pos ⟨h1, h2⟩]
    exact ⟨rfl, rfl⟩
  · intro h1 h2
    rw [if_pos ⟨h1, h2⟩, if_pos ⟨h1, h2⟩]
    exact ⟨rfl, rfl⟩

theorem claim6_witness :
    ((generate_integrated_timeseries
        ([(⟨2024, 1, 1⟩, 2), (⟨2024, 2, 1⟩, 3)] : List (PDate × ℚ))
        false (fun _ => none)).getD 1 default).mom_absolute = some 1 ∧
    ((generate_integrated_timeseries
        ([(⟨2024, 1, 1⟩, 2), (⟨2024, 2, 1⟩, 3)] : List (PDate × ℚ))
        false (fun _ => none)).getD 1 default).mom_percentage = some 50 ∧
    ((generate_integrated_timeseries
        ([(⟨2024, 1, 1⟩, 2), (⟨2024, 2, 1⟩, 3)] : List (PDate × ℚ))
        false (fun _ => none)).getD 0 default).mom_absolute = none := by
  have h1 := claim6_lag_fields ([(⟨2024, 1, 1⟩, 2), (⟨2024, 2, 1⟩, 3)] : List (PDate × ℚ))
    false (fun _ => none) 1 (by decide)
  have h0 := claim6_lag_fields ([(⟨2024, 1, 1⟩, 2), (⟨2024, 2, 1⟩, 3)] : List (PDate × ℚ))
    false (fun _ => none) 0 (by decide)
  obtain ⟨hm, hm2⟩ := h1.2.2.1 (by omega) (by norm_num [dfValue])
  refine ⟨?_, ?_, ?_⟩
  · rw [hm]
    rw [show dfValue ([(⟨2024, 1, 1⟩, 2), (⟨2024, 2, 1⟩, 3)] : List (PDate × ℚ)) 1
        - dfValue ([(⟨2024, 1, 1⟩, 2), (⟨2024, 2, 1⟩, 3)] : List (PDate × ℚ)) (1 - 1)
        = 1 from by norm_num [dfValue],
      round2_concrete 1 100 (by rw [Rat.floor_def']; norm_num)]
    norm_num
  · rw [hm2]
    rw [show (dfValue ([(⟨2024, 1, 1⟩, 2), (⟨2024, 2, 1⟩, 3)] : List (PDate × ℚ)) 1
        - dfValue ([(⟨2024, 1, 1⟩, 2), (⟨2024, 2, 1⟩, 3)] : List (PDate × ℚ)) (1 - 1))
        / dfValue ([(⟨2024, 1, 1⟩, 2), (⟨2024, 2, 1⟩, 3)] : List (PDate × ℚ)) (1 - 1)
        * 100 = 50 from by norm_num [dfValue],
      round2_concrete 50 5000 (by rw [Rat.floor_def']; norm_num)]
    norm_num
  · by_contra hne
    exact absurd (h0.1.mp hne).1 (by omega)

theorem mapM_parse_rows (data : List Obs)
    (hdates : ∀ o ∈ data, ∃ dt, parseDate o.date = some dt)
    (hvals : ∀ o ∈ data, parseNumeric o.value = none) :
    ∃ rows, data.mapM (fun o =>
        (parseDate o.date).map (fun dt => (dt, parseNumeric o.value)))
      = some rows ∧ ∀ p ∈ rows, p.2 = none := by
  induction data with
  | nil => exact ⟨[], rfl, by simp⟩
  | cons o os ih =>
    obtain ⟨dt, hdt⟩ := hdates o (by simp)
    obtain ⟨rows, hrows, hall⟩ := ih
      (fun o' h' => hdates o' (by simp [h']))
      (fun o' h' => hvals o' (by simp [h']))
    refine ⟨(dt, parseNumeric o.value) :: rows, ?_, ?_⟩
    · rw [List.mapM_cons, hdt, hrows]
      rfl
    · intro p hp
      rcases List.mem_cons.mp hp with hp | hp
      · rw [hp]
        exact hvals o (by simp)
      · exact hall p hp

/-- C10: the empty-input check of `_parse_json` fires on the raw list before
missing values are dropped, so a nonempty all-missing input (every value
coercing to NaN, e.g. all `"."`) makes the constructor succeed with an empty
internal frame instead of raising the empty-input error. -/
theorem claim10_empty_check_precedes_dropna (data : List Obs)
    (hne : data ≠ [])
    (hdates : ∀ o ∈ data, ∃ dt, parseDate o.date = some dt)
    (hvals : ∀ o ∈ data, parseNumeric o.value = none) :
    parse_json data = .ok [] := by
  obtain ⟨rows, hrows, hall⟩ := mapM_parse_rows data hdates hvals
  unfold parse_json
  rw [if_neg (by simpa using hne), hrows]
  have hfm : rows.filterMap (fun p => p.2.map (fun v => (p.1, v))) = [] := by
    rw [List.filterMap_eq_nil_iff]
    intro p hp
    rw [hall p hp]
    rfl
  dsimp only
  rw [hfm]
  rfl

theorem claim10_witness :
    parse_json [⟨"2024-01-01", "."⟩, ⟨"2024-02-01", "."⟩] = .ok [] := by
  refine claim10_empty_check_precedes_dropna _ (by decide) ?_ ?_
  · intro o h
    rcases List.mem_cons.mp h with h | h
    · exact ⟨⟨2024, 1, 1⟩, by rw [h]; decide⟩
    · rcases List.mem_cons.mp h with h | h
      · exact ⟨⟨2024, 2, 1⟩, by rw [h]; decide⟩
      · exact absurd h (by simp)
  · intro o h
    rcases List.mem_cons.mp h with h | h
    · rw [h]
      decide
    · rcases List.mem_cons.mp h with h | h
      · rw [h]
        decide
      · exact absurd h (by simp)

/-! ### llama_api.FredLLMAgent: tool execution and the finalize-turn messages -/

/-- One extracted tool call (`extract_tool_calls` always sets all four keys). -/
structure ToolCall where
  tool_call_id : String
  series_id : String
  start_date : String
  end_date : String
deriving DecidableEq, Repr, Inhabited

/-- Embedding of `FredLLMAgent.execute_tool_calls(tool_calls, use_fallback)`.  The two
fetch paths — `call_fred_api_with_fallback(series, s, e,
compact_mode=use_compact)` (with its defaulted `max_retries = 1`) and
`call_fred_api(series, s, e, compact_mode=use_compact)` — are abstracted by
`fetchFallback` / `fetchDirect` over (series_id, start, end, compact_mode),
since the network state is ambient.  Empty-string dates are falsy and get
the `today - 730 days` / `today` defaults; a missing series id short-cuts to
an error slot without fetching. -/
def execute_tool_calls (α : Type) (today : PDate)
    (fetchFallback fetchDirect : String → String → String → Bool → FredResult α)
    (use_fallback : Bool) (tool_calls : List ToolCall) : List (FredResult α) :=
  let use_compact : Bool := decide (2 < tool_calls.length)
  (List.range tool_calls.length).map (fun idx =>
    let call := tool_calls.getD idx default
    let start_date :=
      if call.start_date = "" then renderDate (predN 730 today) else call.start_date
    let end_date := if call.end_date = "" then renderDate today else call.end_date
    if call.series_id = "" then
      { success := false, error := some "No series_id provided",
        tool_call_id := some call.tool_call_id }
    else
      let api_result :=
        if use_fallback then fetchFallback call.series_id start_date end_date use_compact
        else fetchDirect call.series_id start_date end_date use_compact
      { api_result with tool_call_id := some call.tool_call_id })

/-- One message of role `tool` appended in step 3 of `process_question`.
The dict content (`json.dumps` elided) is kept structurally: success content
is `{series_id, indicator, analysis}`, failure content `{error}`, plus the
optional trailing `reminder` key.  (`result.get('analysis', {})` defaults to
an empty dict, a JSON placeholder folded into the `Option` here.) -/
structure ToolMsg (α : Type) where
  tool_call_id : String
  series_id : Option String
  indicator : Option String
  analysis : Option α
  error : Option String
  reminder : Option String

instance {α : Type} : Inhabited (ToolMsg α) := ⟨⟨"", none, none, none, none, none⟩⟩

/-- The tool-response loop of `FredLLMAgent.process_question` (step 3): one
tool message per api result, and the cross-indicator reminder attached to
the message at index `len(api_results) - 1`. -/
def buildToolMessages (α : Type) (api_results : List (FredResult α)) :
    List (ToolMsg α) :=
  (List.range api_results.length).map (fun idx =>
    let result := api_results.getD idx default
    let base : ToolMsg α :=
      if result.success then
        { tool_call_id := result.tool_call_id.getD "",
          series_id := some (result.series_id.getD ""),
          indicator := some (result.indicator_name.getD ""),
          analysis := result.analysis, error := none, reminder := none }
      else
        { tool_call_id := result.tool_call_id.getD "",
          series_id := none, indicator := none, analysis := none,
          error := some (result.error.getD "Unknown error"), reminder := none }
    if idx = api_results.length - 1 then
      { base with reminder := some ("IMPORTANT: You must analyze ALL "
          ++ toString api_results.length ++ " indicators including "
          ++ String.intercalate ", "
              ((api_results.filter (fun r => r.success)).map
                (fun r => r.series_id.getD ""))
          ++ ". Do not skip any.") }
    else base)

/-- C7: for a plan of `n` tool calls, every executed call is fetched with
`compact_mode` set exactly when `n ≥ 3` (and detailed mode, `compact_mode =
false`, when `n < 3` — the flag is shared by all calls of the batch); and in
the finalize-turn messages built from the results, the cross-indicator
reminder is present on exactly the last tool message. -/
theorem claim7_compact_threshold_and_last_reminder (α : Type) (today : PDate)
    (fetchFallback fetchDirect : String → String → String → Bool → FredResult α)
    (use_fallback : Bool) (tool_calls : List ToolCall) :
    (∀ i, i < tool_calls.length → (tool_calls.getD i default).series_id ≠ "" →
      (execute_tool_calls α today fetchFallback fetchDirect use_fallback
          tool_calls).getD i default
        = { (if use_fallback then fetchFallback else fetchDirect)
              (tool_calls.getD i default).series_id
              (if (tool_calls.getD i default).start_date = ""
               then renderDate (predN 730 today)
               else (tool_calls.getD i default).start_date)
              (if (tool_calls.getD i default).end_date = ""
               then renderDate today
               else (tool_calls.getD i default).end_date)
              (decide (3 ≤ tool_calls.length))
            with tool_call_id := some (tool_calls.getD i default).tool_call_id }) ∧
    (∀ j, j < tool_calls.length →
      (((buildToolMessages α (execute_tool_calls α today fetchFallback
          fetchDirect use_fallback tool_calls)).getD j default).reminder ≠ none
        ↔ j = tool_calls.length - 1)) := by
  have hlen : (execute_tool_calls α today fetchFallback fetchDirect use_fallback
      tool_calls).length = tool_calls.length := by
    unfold execute_tool_calls
    rw [List.length_map, List.length_range]
  constructor
  · intro i hi hsid
    unfold execute_tool_calls
    rw [range_map_getD tool_calls.length i _ hi]
    dsimp only
    rw [if_neg hsid]
    have hflag : (decide (2 < tool_calls.length)) = (decide (3 ≤ tool_calls.length)) := by
      rcases Nat.lt_or_ge tool_calls.length 3 with h | h
      · rw [decide_eq_false (by omega), decide_eq_false (by omega)]
      · rw [decide_eq_true (by omega), decide_eq_true (by omega)]
    rw [hflag]
    cases use_fallback <;> rfl
  · intro j hj
    have hj' : j < (execute_tool_calls α today fetchFallback fetchDirect
        use_fallback tool_calls).length := by rw [hlen]; exact hj
    unfold buildToolMessages
    rw [range_map_getD _ j _ hj']
    dsimp only
    rw [hlen]
    by_cases hlast : j = tool_calls.length - 1
    · rw [if_pos hlast]
      simp only [hlast, iff_true]
      intro hc
      cases hc
    · rw [if_neg hlast]
      simp only [hlast, iff_false, not_not]
      by_cases hs : ((execute_tool_calls α today fetchFallback fetchDirect
          use_fallback tool_calls).getD j default).success
      · rw [if_pos hs]
      · rw [if_neg hs]

def claim7FetchFB : String → String → String → Bool → FredResult Nat :=
  fun sid _ _ c =>
    { success := true, series_id := some sid, data := [⟨"2024-01-01", "1"⟩],
      indicator_name := some (if c then "compact" else "detailed") }

def claim7FetchD : String → String → String → Bool → FredResult Nat :=
  fun _ _ _ _ => { success := false }

def claim7Calls : List ToolCall :=
  [⟨"id0", "GDP", "2024-01-01", "2024-06-01"⟩,
   ⟨"id1", "UNRATE", "2024-01-01", "2024-06-01"⟩,
   ⟨"id2", "CPIAUCSL", "2024-01-01", "2024-06-01"⟩]

theorem claim7_witness :
    (execute_tool_calls Nat ⟨2025, 10, 12⟩ claim7FetchFB claim7FetchD true
        claim7Calls).getD 0 default
      = { success := true, series_id := some "GDP",
          data := [⟨"2024-01-01", "1"⟩], indicator_name := some "compact",
          tool_call_id := some "id0" } ∧
    ((buildToolMessages Nat (execute_tool_calls Nat ⟨2025, 10, 12⟩
        claim7FetchFB claim7FetchD true claim7Calls)).getD 1 default).reminder
      = none := by
  have h := claim7_compact_threshold_and_last_reminder Nat ⟨2025, 10, 12⟩
    claim7FetchFB claim7FetchD true claim7Calls
  constructor
  · have h0 := h.1 0 (by decide) (by decide)
    rw [h0]
    rfl
  · have h1 := h.2 1 (by decide)
    by_contra hne
    exact absurd (h1.mp hne) (by decide)

/-! ### retrieval_accuracy_test.AccuracyEvaluator -/

/-- The result of `FredLLMAgent.extract_tool_calls`, as consumed by the
evaluator.  The failure dicts of `extract_tool_calls` carry no `tool_calls`
key, which `evaluate_single_case` reads back as a falsy
`extraction.get('tool_calls')`; that is modelled as an empty list (the
invariant `success = false → tool_calls = []` holds for every value the
extractor actually produces and is a hypothesis where it matters). -/
structure Extraction where
  success : Bool
  tool_calls : List ToolCall
  error : Option String := none

/-- An `expected_date_range` fixture value: an absolute `{start, end}` or a
relative `{relative_start: "Ny"|"Nm", relative_end: "today"}` dict; absent
keys are `none` (the JSON key `end` is `end_` since `end` is reserved). -/
structure ExpectedRange where
  start : Option String := none
  end_ : Option String := none
  relative_start : Option String := none
  relative_end : Option String := none

/-- One test case of the fixture file (`test_case.get("tool_call_required",
True)` is the field's default). -/
structure TestCase where
  question_id : String
  expected_series_ids : List String
  expected_date_range : Option ExpectedRange := none
  tool_call_required : Bool := true

/-- The dict returned by `evaluate_series_id` (`list(...)` of a Python set
has arbitrary order, so the three id collections stay `Finset`s). -/
structure SeriesEval where
  score : ℚ
  correct_count : Nat
  correct : Finset String
  missing : Finset String
  extra : Finset String

/-- Embedding of `AccuracyEvaluator.evaluate_series_id`: an F1 score between the sets of
expected and actually requested series ids, with the empty-expected special
case, rounded to two decimals. -/
def evaluate_series_id (actual_calls : List ToolCall)
    (expected_series_ids : List String) : SeriesEval :=
  let actual_ids := actual_calls.map (fun c => c.series_id)
  let expected_set := expected_series_ids.toFinset
  let actual_set := actual_ids.toFinset
  let correct := expected_set ∩ actual_set
  let missing := expected_set \ actual_set
  let extra := actual_set \ expected_set
  let score : ℚ :=
    if expected_set = ∅ then (if actual_set = ∅ then 1 else 0)
    else
      let precision : ℚ :=
        if actual_set ≠ ∅ then (correct.card : ℚ) / (actual_set.card : ℚ) else 0
      let recall_ : ℚ := (correct.card : ℚ) / (expected_set.card : ℚ)
      if 0 < precision + recall_ then
        2 * (precision * recall_) / (precision + recall_)
      else 0
  { score := round2 score, correct_count := correct.card,
    correct := correct, missing := missing, extra := extra }

/-- Embedding of `AccuracyEvaluator._compare_dates`: 1 on exact match, linear decay to 0
at `tolerance_days` difference, 0 beyond or on any parse failure or empty
string. -/
def compare_dates (actual expected : String) (tolerance_days : Nat) : ℚ :=
  if actual = "" ∨ expected = "" then 0
  else
    match parseDate actual, parseDate expected with
    | some a, some e =>
      let diff_days : Nat :=
        max (toOrdinal a) (toOrdinal e) - min (toOrdinal a) (toOrdinal e)
      if diff_days = 0 then 1
      else if diff_days ≤ tolerance_days then
        1 - (diff_days : ℚ) / (tolerance_days : ℚ)
      else 0
    | _, _ => 0

/-- Python `int(s)` on the digit prefix of a relative range ("1y" → 1):
`none` where `int` raises.  (Negative year/month counts would shift into the
future, which `predN` does not model; the fixtures only use nonnegative
counts, and no claim exercises this branch at all.) -/
def parseIntPy (s : String) : Option Nat :=
  if s.data ≠ [] ∧ s.data.all Char.isDigit then
    some (s.data.foldl (fun acc c => acc * 10 + (c.toNat - 48)) 0)
  else none

/-- Python truthiness of `expected_date_range` (`None` or the empty dict is
falsy). -/
def rangeFalsy (r : Option ExpectedRange) : Bool :=
  match r with
  | none => true
  | some r =>
    r.start.isNone && r.end_.isNone && r.relative_start.isNone
      && r.relative_end.isNone

/-- Embedding of `AccuracyEvaluator.evaluate_date_range`; `none` models the uncaught
exception when `int(relative[:-1])` raises.  The expected start/end are the
same for every call, so they are computed once rather than per loop
iteration. -/
def evaluate_date_range (today : PDate) (actual_calls : List ToolCall)
    (expected_date_range : Option ExpectedRange) : Option ℚ :=
  if rangeFalsy expected_date_range ∨ actual_calls.isEmpty then
    some 1
  else
    let r := expected_date_range.getD {}
    let expected_start? : Option String :=
      match r.relative_start with
      | some rel =>
        if rel.endsWith "y" then
          (parseIntPy (rel.dropRight 1)).map
            (fun years => renderDate (predN (365 * years) today))
        else if rel.endsWith "m" then
          (parseIntPy (rel.dropRight 1)).map
            (fun months => renderDate (predN (30 * months) today))
        else some (r.start.getD "")
      | none => some (r.start.getD "")
    match expected_start? with
    | none => none
    | some expected_start =>
      let expected_end :=
        if r.relative_end = some "today" then renderDate today
        else r.end_.getD ""
      let scores := actual_calls.map (fun call =>
        (compare_dates call.start_date expected_start 30
          + compare_dates call.end_date expected_end 30) / 2)
      let avg_score : ℚ :=
        if scores.isEmpty then 0 else scores.sum / (scores.length : ℚ)
      some (round2 avg_score)

/-- The scored counterpart of a test case, flattening the source's result
dicts: the happy path carries `series_id_evaluation['score']` and
`date_range_evaluation['score']`; the failure branches carry their literal
zero scores. -/
structure EvalOutcome where
  question_id : String
  success : Bool
  series_score : ℚ
  date_score : ℚ
  overall_score : ℚ
  error : Option String := none

/-- Embedding of `AccuracyEvaluator.evaluate_single_case` with the extraction passed in
(`self.agent.extract_tool_calls(question)` is the model capability);
`none` models an uncaught exception escaping from the date-range axis. -/
def evaluate_single_case (today : PDate) (test_case : TestCase)
    (extraction : Extraction) : Option EvalOutcome :=
  if test_case.tool_call_required = false then
    if extraction.success && !extraction.tool_calls.isEmpty then
      some { question_id := test_case.question_id, success := false,
             series_score := 0, date_score := 0, overall_score := 0,
             error := some
               "Model incorrectly made a tool call for a non-tool-call question" }
    else
      some { question_id := test_case.question_id, success := true,
             series_score := 1, date_score := 1, overall_score := 1 }
  else if extraction.success = false then
    some { question_id := test_case.question_id, success := false,
           series_score := 0, date_score := 0, overall_score := 0,
           error := some (extraction.error.getD "Tool call extraction failed") }
  else
    let series_eval := evaluate_series_id extraction.tool_calls
      test_case.expected_series_ids
    match evaluate_date_range today extraction.tool_calls
        test_case.expected_date_range with
    | some date_score =>
      some { question_id := test_case.question_id, success := true,
             series_score := series_eval.score, date_score := date_score,
             overall_score := round2 (series_eval.score * (1 / 2)
               + date_score * (1 / 2)) }
    | none => none

/-- C8: on a test case with `tool_call_required = false`, the scorer returns
overall score 1 iff the extraction produced zero tool calls, returns 0 with
both axis scores 0 whenever at least one tool call was made, and never any
value strictly between. -/
theorem claim8_no_tool_case_all_or_nothing (today : PDate) (tc : TestCase)
    (ex : Extraction) (hreq : tc.tool_call_required = false)
    (hinv : ex.success = false → ex.tool_calls = []) :
    ∃ r, evaluate_single_case today tc ex = some r ∧
      (r.overall_score = 1 ↔ ex.tool_calls = []) ∧
      (ex.tool_calls ≠ [] →
        r.overall_score = 0 ∧ r.series_score = 0 ∧ r.date_score = 0) ∧
      (r.overall_score = 1 ∨ r.overall_score = 0) := by
  unfold evaluate_single_case
  rw [hreq, if_pos rfl]
  cases hsucc : ex.success
  · have hempty := hinv hsucc
    rw [hempty]
    refine ⟨_, rfl, ?_, ?_, Or.inl rfl⟩
    · simp
    · intro hc
      exact absurd rfl hc
  · rcases hcalls : ex.tool_calls with _ | ⟨c, cs⟩
    · refine ⟨_, rfl, ?_, ?_, Or.inl rfl⟩
      · simp
      · intro hc
        exact absurd rfl hc
    · refine ⟨_, rfl, ?_, ?_, Or.inr rfl⟩
      · constructor
        · intro h1
          exact absurd h1 (by norm_num)
        · intro hc
          exact absurd hc (by simp)
      · intro hc
        exact ⟨rfl, rfl, rfl⟩

theorem claim8_witness :
    (∃ r, evaluate_single_case ⟨2025, 10, 12⟩
        { question_id := "q1", expected_series_ids := [],
          tool_call_required := false }
        { success := true,
          tool_calls := [⟨"id0", "GDP", "2024-01-01", "2024-06-01"⟩] }
      = some r ∧ r.overall_score = 0 ∧ r.series_score = 0) ∧
    (∃ r, evaluate_single_case ⟨2025, 10, 12⟩
        { question_id := "q1", expected_series_ids := [],
          tool_call_required := false }
        { success := true, tool_calls := [] }
      = some r ∧ r.overall_score = 1) := by
  constructor
  · obtain ⟨r, hr, hiff, hzero, hor⟩ := claim8_no_tool_case_all_or_nothing
      ⟨2025, 10, 12⟩
      { question_id := "q1", expected_series_ids := [],
        tool_call_required := false }
      { success := true,
        tool_calls := [⟨"id0", "GDP", "2024-01-01", "2024-06-01"⟩] }
      rfl (fun h => nomatch h)
    obtain ⟨h0, hs0, _⟩ := hzero (by simp)
    exact ⟨r, hr, h0, hs0⟩
  · obtain ⟨r, hr, hiff, hzero, hor⟩ := claim8_no_tool_case_all_or_nothing
      ⟨2025, 10, 12⟩
      { question_id := "q1", expected_series_ids := [],
        tool_call_required := false }
      { success := true, tool_calls := [] }
      rfl (fun h => nomatch h)
    exact ⟨r, hr, hiff.mpr rfl⟩

end DS5500
